import Mathlib

/-!
Verification of the host-star starmap core of the alien_life repository
(`src/starmap.py`, `src/viewer.py`).

The embedding models the tabular data that `create_starmap` and
`generate_blurbs` operate on.  A pandas cell is either missing (NaN),
a number, or a string; a planet-level row carries exactly the columns
the core logic touches.  Numbers are modelled as rationals: the Python
code works on float64, and every arithmetic step the claims exercise
(division by the literal constants, flooring, formatting to one decimal
place) is exact at the inputs used here.
-/

/-- A pandas cell: missing (NaN), numeric, or a string. -/
inductive Cell where
  | na : Cell
  | num : ℚ → Cell
  | str : String → Cell
deriving Repr, DecidableEq

/-- Planet-level row of the filtered catalog frame (`df_filt`), with the
columns read by `create_starmap` / `generate_blurbs`.  The host name is the
group-by key and is a proper string in the catalog. -/
structure PlanetRow where
  hostname : String
  ra : Cell
  dec : Cell
  sy_dist : Cell
  st_spectype : Cell
  st_teff : Cell
  st_mass : Cell
  st_rad : Cell
  pl_name : Cell
  sy_pnum : Cell
  disc_year : Cell
deriving Repr, DecidableEq

/-- Aggregated host row (`df_hosts`): one row per unique host produced by
`df_plot.groupby(hostname).agg(host_agg)`.  `pl_name` is the joined name
string and `sy_pnum` the group size, exactly as the `agg` dict builds them. -/
structure HostRow where
  hostname : String
  ra : Cell
  dec : Cell
  sy_dist : Cell
  st_spectype : Cell
  st_teff : Cell
  st_mass : Cell
  st_rad : Cell
  pl_name : String
  sy_pnum : ℕ
  disc_year : Cell
deriving Repr, DecidableEq

/-- Value of a decimal digit character, if it is one. -/
def decDigit (c : Char) : Option ℕ :=
  if c.isDigit then some (c.toNat - 48) else none

/-- Reads a nonempty all-digit character list as a natural number. -/
def digitsToNat (l : List Char) : Option ℕ :=
  if l.isEmpty then none
  else l.foldl (fun acc c =>
    match acc, decDigit c with
    | some a, some d => some (a * 10 + d)
    | _, _ => none) (some 0)

/-- Modelled from the spec: the numeric coercion performed by
`pd.to_numeric(..., errors=coerce)` (an external pandas routine) on one
string cell — a decimal literal (optional sign, optional fractional part)
coerces to its value, any other string fails.  This splits a character
list at the dots of the literal. -/
def dotSplit : List Char → List (List Char)
  | [] => [[]]
  | c :: cs =>
    if c = '.' then [] :: dotSplit cs
    else
      match dotSplit cs with
      | [] => [[c]]
      | h :: t => (c :: h) :: t

/-- Decides whether the leading character is a minus sign. -/
def leadingMinus (l : List Char) : Bool :=
  match l with
  | c :: _ => c = '-'
  | [] => false

/-- Parses a signed decimal literal. -/
def parseNum (s : String) : Option ℚ :=
  let neg := leadingMinus s.data
  let sgn : ℚ := if neg then -1 else 1
  let body := if neg then s.data.tail else s.data
  match dotSplit body with
  | [ip] => (digitsToNat ip).map (fun n => sgn * (n : ℚ))
  | [ip, fp] =>
    match digitsToNat ip, digitsToNat fp with
    | some a, some b => some (sgn * ((a : ℚ) + (b : ℚ) / (10 : ℚ) ^ fp.length))
    | _, _ => none
  | _ => none

/-- `pd.to_numeric(cell, errors=coerce)`: numbers pass through, NaN stays
NaN, strings are parsed and become NaN on failure.  The subsequent
`astype(float64)` does not change the modelled value. -/
def toNumeric (c : Cell) : Cell :=
  match c with
  | Cell.na => Cell.na
  | Cell.num q => Cell.num q
  | Cell.str s =>
    match parseNum s with
    | some q => Cell.num q
    | none => Cell.na

/-- Whether a cell holds a number (i.e. survives `dropna` after coercion). -/
def Cell.isNum (c : Cell) : Bool :=
  match c with
  | Cell.num _ => true
  | _ => false

/-- Lines 24-26 of `create_starmap` assign the coerced `ra`, `dec`,
`sy_dist` columns back into the frame of the caller, record by record. -/
def coerceRow (r : PlanetRow) : PlanetRow :=
  { r with ra := toNumeric r.ra, dec := toNumeric r.dec, sy_dist := toNumeric r.sy_dist }

/-- State of the input frame `df_filt` after `create_starmap` returns: the
in-place column assignments `df_filt[col] = pd.to_numeric(df_filt[col], ...)`
leave the collection of the caller with coerced `ra`/`dec`/`sy_dist` cells. -/
def create_starmap_input_after (rows : List PlanetRow) : List PlanetRow :=
  rows.map coerceRow

/-- `dropna(subset=[ra, dec, sy_dist])`: all three coordinates present. -/
def validCoords (r : PlanetRow) : Bool :=
  r.ra.isNum && r.dec.isNum && r.sy_dist.isNum

/-- `df_plot = df_filt.dropna(subset=[ra, dec, sy_dist]).copy()` applied
after the in-place numeric coercion. -/
def df_plot (rows : List PlanetRow) : List PlanetRow :=
  (rows.map coerceRow).filter validCoords

/-- Pandas `GroupBy.first` aggregation: the first non-missing entry of the
column within the group (NaN when every entry is missing).  Pandas skips
NA elements by default, so this is *not* the value of the raw first row. -/
def aggFirst : List Cell → Cell
  | [] => Cell.na
  | Cell.na :: rest => aggFirst rest
  | c :: _ => c

/-- Numeric content of a cell. -/
def numOf (c : Cell) : Option ℚ :=
  match c with
  | Cell.num q => some q
  | _ => none

/-- String content of a cell. -/
def strOf (c : Cell) : Option String :=
  match c with
  | Cell.str s => some s
  | _ => none

/-- Minimum of a nonempty rational list, folded left as pandas reduces it. -/
def listMinQ : List ℚ → Option ℚ
  | [] => none
  | x :: xs => some (xs.foldl min x)

/-- Pandas `min` aggregation for `disc_year`: minimum of the non-missing
numeric entries, NaN when there are none (NA elements are skipped). -/
def aggMin (l : List Cell) : Cell :=
  match listMinQ (l.filterMap numOf) with
  | none => Cell.na
  | some q => Cell.num q

/-- Pandas `Series.unique` keeps the first occurrence of each value. -/
def dedupAux : List String → List String → List String
  | _, [] => []
  | seen, s :: rest =>
    if s ∈ seen then dedupAux seen rest else s :: dedupAux (s :: seen) rest

/-- First-occurrence deduplication, as `x.dropna().unique()` performs it. -/
def dedupFirst (l : List String) : List String :=
  dedupAux [] l

/-- The planet-name aggregation lambda
`join of sorted(x.dropna().unique()) with a comma separator`: drop missing entries,
deduplicate, sort ascending.  Python `sorted` and the Lean `String` order
agree on the code-point comparison used here. -/
def sortedNames (cells : List Cell) : List String :=
  List.insertionSort (· ≤ ·) (dedupFirst (cells.filterMap strOf))

/-- One aggregated host row, per the `host_agg` dict of `create_starmap`
(lines 31-46): `first` on the star-level columns, joined sorted unique
planet names, group size as planet count, minimum discovery year. -/
def aggregateHost (h : String) (g : List PlanetRow) : HostRow :=
  { hostname := h
    ra := aggFirst (g.map (·.ra))
    dec := aggFirst (g.map (·.dec))
    sy_dist := aggFirst (g.map (·.sy_dist))
    st_spectype := aggFirst (g.map (·.st_spectype))
    st_teff := aggFirst (g.map (·.st_teff))
    st_mass := aggFirst (g.map (·.st_mass))
    st_rad := aggFirst (g.map (·.st_rad))
    pl_name := String.intercalate ", " (sortedNames (g.map (·.pl_name)))
    sy_pnum := g.length
    disc_year := aggMin (g.map (·.disc_year)) }

/-- Group keys of `groupby(hostname)`: the distinct host names, in the
sorted order pandas emits groups in (`sort=True` default). -/
def hostKeys (rows : List PlanetRow) : List String :=
  List.insertionSort (· ≤ ·) (dedupFirst (rows.map (·.hostname)))

/-- The rows of the group of one host, in frame order (case-sensitive match). -/
def groupOf (rows : List PlanetRow) (h : String) : List PlanetRow :=
  rows.filter (fun r => r.hostname == h)

/-- `df_hosts = df_plot.groupby(hostname).agg(host_agg).reset_index()`. -/
def df_hosts (rows : List PlanetRow) : List HostRow :=
  (hostKeys (df_plot rows)).map (fun h => aggregateHost h (groupOf (df_plot rows) h))

/-- Constant from `generate_blurbs`: Parker Solar Probe peak speed, km/h. -/
def FASTEST_SPEED_KMH : ℚ := 692000

/-- Constant from `generate_blurbs`: hours per year. -/
def HOURS_PER_YEAR : ℚ := 8760

/-- Constant from `generate_blurbs`: kilometres per light-year. -/
def LIGHT_YEAR_KM : ℚ := 9.46073e12

/-- Modelled from the spec: one-decimal fixed-point formatting (Python format spec .1f) of the
(non-negative) distance — one decimal place, rounding to nearest.  Python
rounds the underlying float half-to-even; the two behaviours agree away
from exact ties, and every value formatted in this development is far from
a tie. -/
def fmt1 (q : ℚ) : String :=
  let n : ℕ := Int.toNat (Rat.floor (q * 10 + 1 / 2))
  toString (n / 10) ++ "." ++ toString (n % 10)

/-- Inserts a thousands separator every three digits, walking the reversed
digit list; `k` counts digits until the next separator. -/
def commaRevAux : List Char → ℕ → List Char
  | [], _ => []
  | c :: cs, k =>
    if k = 0 then ',' :: c :: commaRevAux cs 2 else c :: commaRevAux cs (k - 1)

/-- Modelled from the spec: thousands-separated integer formatting (Python format spec with a comma). -/
def commaFmt (n : ℕ) : String :=
  String.mk (commaRevAux (toString n).data.reverse 3).reverse

/-- The Python string upper method: uppercase every character.  The
spectral strings involved are ASCII, where the two functions agree. -/
def upperStr (s : String) : String :=
  String.mk (s.data.map Char.toUpper)

/-- The Python startswith test on strings. -/
def strStarts (s p : String) : Bool :=
  p.data.isPrefixOf s.data

/-- The `row.get(st_spectype, mysterious)` access followed by
`.upper()`.  The input is `none` when the row carries no `st_spectype` key
at all (then the default string is uppercased) and `some c` when the column
is present with cell `c`.  A present but missing (NaN) or numeric cell is a
float at runtime, and `float.upper()` raises `AttributeError` — modelled as
the error case. -/
def sptUpper : Option Cell → Except Unit String
  | none => Except.ok (upperStr "mysterious")
  | some (Cell.str s) => Except.ok (upperStr s)
  | some _ => Except.error ()

/-- Spectral-flavour branch of `generate_blurbs` (lines 171-180), applied
to the already-uppercased type string. -/
def star_desc (spt : String) : String :=
  if strStarts spt "M" then
    "a chill red dwarf that\x27s basically immortal (trillions of years potential lifespan)"
  else if strStarts spt "K" then
    "a cozy orange dwarf — long-lived and pretty forgiving for planets"
  else if strStarts spt "G" then
    "a proper Sun-like yellow star (the classic \x27Goldilocks\x27 host)"
  else if strStarts spt "F" then
    "a bright white-yellow hotshot (shorter life but dazzling)"
  else
    "an intriguing star of type " ++ spt

/-- Star description as the pipeline computes it for a present string-typed
spectral cell: the raw catalog string is uppercased first (line 159) and
the uppercased form feeds the prefix tests and the fallback interpolation. -/
def blurb_star_desc (s : String) : String :=
  star_desc (upperStr s)

/-- Habitability remark.  `row.get(potentially_habitable, False)` always
takes its default in this pipeline — no code in the repository ever
computes that column — so the discouraging phrase is emitted. -/
def hz_status : String :=
  "probably not — wrong orbit or too extreme"

/-- Body of `generate_blurbs` (lines 153-200) over one aggregated host row,
with the spectral cell passed as `row.get` sees it (`none` = key absent).
Error means a Python exception escapes: `AttributeError` from `.upper()` on
a non-string spectral value, or (later, at `int()`) a missing distance.
The planet count is the `size` aggregate, always a number, so the
`pd.notna(row[sy_pnum])` guard always passes; likewise `pl_name` is a
(possibly empty) joined string, so its `pd.notna` guard passes.  The
`speed_km_per_year > 0` guard is true for the fixed constants. -/
def generate_blurbs_raw (spt : Option Cell) (hostname : String) (sy_dist : Cell)
    (num_pl : ℕ) (pl_list : String) : Except Unit String := do
  let sptU ← sptUpper spt
  let dist_pc ← (match sy_dist with
    | Cell.num q => Except.ok q
    | _ => Except.error ())
  let dist_ly := dist_pc / 3.08568
  let distance_km := dist_ly * LIGHT_YEAR_KM
  let speed_km_per_year := FASTEST_SPEED_KMH * HOURS_PER_YEAR
  let travel_years : ℕ := Int.toNat (Rat.floor (distance_km / speed_km_per_year))
  Except.ok ("\n            **" ++ hostname ++ "**  \n\n            This "
    ++ star_desc sptU ++ " is approximately " ++ fmt1 dist_ly
    ++ " light-years from us.  \n\n            It has **" ++ toString num_pl
    ++ " planet" ++ (if num_pl ≠ 1 then "s" else "") ++ "** (" ++ pl_list
    ++ ").  \n\n            Habitable zone? " ++ hz_status
    ++ "  \n\n            Getting there with today\x27s fastest spacecraft tech (Parker Solar Probe speeds ~692,000 km/h)?  \n            Roughly **"
    ++ commaFmt travel_years
    ++ " years** one-way. Better bring a really good book... or wait for that warp drive breakthrough. 🚀😅\n            ")

/-- `generate_blurbs` as `df_hosts.apply(..., axis=1)` invokes it: every
aggregated row carries the `st_spectype` column (the `agg` dict created
it), so the `row.get` default can never fire here. -/
def generate_blurbs (r : HostRow) : Except Unit String :=
  generate_blurbs_raw (some r.st_spectype) r.hostname r.sy_dist r.sy_pnum r.pl_name

/-- Data part of `create_starmap`: early-return on an empty input frame,
numeric coercion, `dropna`, per-host aggregation, then the blurb column.
An error is a Python exception escaping the call. -/
def create_starmap_core (rows : List PlanetRow) : Except Unit (List (HostRow × String)) :=
  if rows.isEmpty then Except.ok []
  else (df_hosts rows).mapM (fun hr => (generate_blurbs hr).map (fun b => (hr, b)))

/-- Substring test used to state what a blurb contains. -/
def hasSubAux (pat : List Char) : List Char → Bool
  | [] => pat.isEmpty
  | c :: cs => pat.isPrefixOf (c :: cs) || hasSubAux pat cs

/-- Whether `pat` occurs inside `s`. -/
def hasSub (s pat : String) : Bool :=
  hasSubAux pat.data s.data

/-- Column access `row[col]` on a planet-level row of `df_filt`.  The
columns of the frame are the planet-level catalog columns; `blurb` is not
among them — `create_starmap` writes its blurbs only to the internal
`df_hosts` aggregate — so that access raises `KeyError` (the error case). -/
def planetRowGet (r : PlanetRow) : String → Except Unit Cell
  | "hostname" => Except.ok (Cell.str r.hostname)
  | "ra" => Except.ok r.ra
  | "dec" => Except.ok r.dec
  | "sy_dist" => Except.ok r.sy_dist
  | "st_spectype" => Except.ok r.st_spectype
  | "st_teff" => Except.ok r.st_teff
  | "st_mass" => Except.ok r.st_mass
  | "st_rad" => Except.ok r.st_rad
  | "pl_name" => Except.ok r.pl_name
  | "sy_pnum" => Except.ok r.sy_pnum
  | "disc_year" => Except.ok r.disc_year
  | _ => Except.error ()

/-- Selection handler of `viewer.py` (lines 123-133):
`selected_row = df_filt of the rows whose hostname equals selected_host`, then, when
the match is nonempty, `selected_row[blurb].iloc[0]` is displayed; an
empty match shows the "No details found" message (`ok none`). -/
def viewer_lookup_blurb (dfFilt : List PlanetRow) (selected_host : String) :
    Except Unit (Option Cell) :=
  match dfFilt.filter (fun r => r.hostname == selected_host) with
  | [] => Except.ok none
  | r :: _ => (planetRowGet r "blurb").map some

/-- Modelled from the spec: the spherical-to-Cartesian conversion the
`astropy.coordinates.SkyCoord(..., frame=icrs).cartesian` call of
`create_starmap` (lines 62-71, an external library) performs on each host —
degrees are converted to radians before the trigonometry and
x = d·cos(dec)·cos(ra), y = d·cos(dec)·sin(ra), z = d·sin(dec). -/
noncomputable def deg2rad (d : ℝ) : ℝ :=
  d * Real.pi / 180

/-- Cartesian position of one host, in parsecs, from RA/Dec in degrees and
distance in parsecs. -/
noncomputable def skyToCartesian (ra dec dist : ℝ) : ℝ × ℝ × ℝ :=
  (dist * Real.cos (deg2rad dec) * Real.cos (deg2rad ra),
   dist * Real.cos (deg2rad dec) * Real.sin (deg2rad ra),
   dist * Real.sin (deg2rad dec))

/-- Planet record with every cell present, used as a concrete input. -/
def rowKepler : PlanetRow :=
  { hostname := "Kepler-22"
    ra := Cell.num 290.5
    dec := Cell.num 47.9
    sy_dist := Cell.num 190
    st_spectype := Cell.str "G5V"
    st_teff := Cell.num 5518
    st_mass := Cell.num 0.97
    st_rad := Cell.num 0.98
    pl_name := Cell.str "Kepler-22 b"
    sy_pnum := Cell.num 1
    disc_year := Cell.num 2011 }

/-- Record whose right ascension is a non-numeric string: the in-place
coercion turns it into NaN inside the frame of the caller. -/
def rowStrRa : PlanetRow :=
  { rowKepler with hostname := "Oddball", ra := Cell.str "abc" }

/-- First record of a two-planet host: missing spectral type, later
discovery year. -/
def rowHostB1 : PlanetRow :=
  { hostname := "HostAB"
    ra := Cell.num 10
    dec := Cell.num 20
    sy_dist := Cell.num 30
    st_spectype := Cell.na
    st_teff := Cell.na
    st_mass := Cell.na
    st_rad := Cell.num 1.1
    pl_name := Cell.str "B"
    sy_pnum := Cell.num 2
    disc_year := Cell.num 2015 }

/-- Second record of the same host: spectral type present, earlier year. -/
def rowHostA2 : PlanetRow :=
  { rowHostB1 with
    st_spectype := Cell.str "G2V"
    pl_name := Cell.str "A"
    disc_year := Cell.num 2010 }

/-- Record with valid coordinates but a missing (NaN) spectral type. -/
def rowNaSpt : PlanetRow :=
  { rowKepler with hostname := "X", st_spectype := Cell.na }

/-- Host row at 10 pc with spectral type G2V and one planet named X, the
worked blurb example of the spec. -/
def hostG2V : HostRow :=
  { hostname := "X-star"
    ra := Cell.num 0
    dec := Cell.num 0
    sy_dist := Cell.num 10
    st_spectype := Cell.str "G2V"
    st_teff := Cell.na
    st_mass := Cell.na
    st_rad := Cell.na
    pl_name := "X"
    sy_pnum := 1
    disc_year := Cell.num 2011 }

/-- Projection of the planet-row fields the in-place coercion never
touches. -/
def nonCoordFields (r : PlanetRow) :
    String × Cell × Cell × Cell × Cell × Cell × Cell × Cell :=
  (r.hostname, r.st_spectype, r.st_teff, r.st_mass, r.st_rad,
   r.pl_name, r.sy_pnum, r.disc_year)

/-- Whether a cell is a string. -/
def Cell.isStr (c : Cell) : Bool :=
  match c with
  | Cell.str _ => true
  | _ => false

/-- Whether none of the three coordinate cells is a string, i.e. each is
already numeric or missing, so coercion leaves it unchanged. -/
def coordCellsClean (r : PlanetRow) : Bool :=
  !r.ra.isStr && !r.dec.isStr && !r.sy_dist.isStr

/-- The blurb the code produces for `hostG2V` (10 pc, G2V, one planet X):
its distance line reads 3.2 light-years, the result of dividing the parsec
distance by 3.08568. -/
def blurbG2V : String :=
  "\n            **X-star**  \n\n            This a proper Sun-like yellow star (the classic \x27Goldilocks\x27 host) is approximately 3.2 light-years from us.  \n\n            It has **1 planet** (X).  \n\n            Habitable zone? probably not — wrong orbit or too extreme  \n\n            Getting there with today\x27s fastest spacecraft tech (Parker Solar Probe speeds ~692,000 km/h)?  \n            Roughly **5,057 years** one-way. Better bring a really good book... or wait for that warp drive breakthrough. 🚀😅\n            "

theorem foldl_min_mem (xs : List ℚ) (x : ℚ) :
    xs.foldl min x = x ∨ xs.foldl min x ∈ xs := by
  induction xs generalizing x with
  | nil => exact Or.inl rfl
  | cons y ys ih =>
    rw [List.foldl_cons]
    rcases ih (min x y) with h | h
    · rcases min_choice x y with h' | h'
      · exact Or.inl (h.trans h')
      · exact Or.inr (by rw [h, h']; exact List.mem_cons_self y ys)
    · exact Or.inr (List.mem_cons_of_mem y h)

theorem foldl_min_le (xs : List ℚ) (x : ℚ) :
    xs.foldl min x ≤ x ∧ ∀ y ∈ xs, xs.foldl min x ≤ y := by
  induction xs generalizing x with
  | nil => exact ⟨le_refl x, fun y hy => absurd hy (List.not_mem_nil y)⟩
  | cons z zs ih =>
    obtain ⟨h1, h2⟩ := ih (min x z)
    rw [List.foldl_cons]
    refine ⟨h1.trans (min_le_left x z), fun y hy => ?_⟩
    rcases List.mem_cons.mp hy with rfl | hy'
    · exact h1.trans (min_le_right x y)
    · exact h2 y hy'

theorem numOf_eq_some {c : Cell} {q : ℚ} : numOf c = some q ↔ c = Cell.num q := by
  cases c <;> simp [numOf]

theorem strOf_eq_some {c : Cell} {s : String} : strOf c = some s ↔ c = Cell.str s := by
  cases c <;> simp [strOf]

theorem aggMin_num {l : List Cell} {q : ℚ} (h : aggMin l = Cell.num q) :
    Cell.num q ∈ l ∧ ∀ c ∈ l, ∀ p : ℚ, c = Cell.num p → q ≤ p := by
  rcases hfm : l.filterMap numOf with _ | ⟨x, xs⟩
  · unfold aggMin at h
    rw [hfm] at h
    simp only [listMinQ] at h
    exact Cell.noConfusion h
  · unfold aggMin at h
    rw [hfm] at h
    simp only [listMinQ] at h
    have hq : xs.foldl min x = q := by
      injection h
    constructor
    · have hmem : q ∈ x :: xs := by
        rcases foldl_min_mem xs x with h' | h'
        · rw [← hq, h']
          exact List.mem_cons_self x xs
        · rw [← hq]
          exact List.mem_cons_of_mem x h'
      rw [← hfm] at hmem
      rcases List.mem_filterMap.mp hmem with ⟨c, hc, hcq⟩
      rw [numOf_eq_some] at hcq
      exact hcq ▸ hc
    · intro c hc p hcp
      have hp : p ∈ x :: xs := by
        rw [← hfm]
        exact List.mem_filterMap.mpr ⟨c, hc, by rw [hcp]; rfl⟩
      obtain ⟨h1, h2⟩ := foldl_min_le xs x
      rcases List.mem_cons.mp hp with rfl | hp'
      · exact hq ▸ h1
      · exact hq ▸ h2 p hp'

theorem mem_dedupAux (a : String) (l : List String) :
    ∀ seen, a ∈ dedupAux seen l ↔ a ∈ l ∧ a ∉ seen := by
  induction l with
  | nil =>
    intro seen
    simp [dedupAux]
  | cons s rest ih =>
    intro seen
    by_cases hs : s ∈ seen
    · rw [dedupAux, if_pos hs, ih seen]
      simp only [List.mem_cons]
      constructor
      · rintro ⟨h1, h2⟩
        exact ⟨Or.inr h1, h2⟩
      · rintro ⟨rfl | h1, h2⟩
        · exact absurd hs h2
        · exact ⟨h1, h2⟩
    · rw [dedupAux, if_neg hs]
      simp only [List.mem_cons, ih (s :: seen)]
      constructor
      · rintro (rfl | ⟨h1, h2⟩)
        · exact ⟨Or.inl rfl, hs⟩
        · exact ⟨Or.inr h1, fun hseen => h2 (Or.inr hseen)⟩
      · rintro ⟨h1 | h1, h2⟩
        · exact Or.inl h1
        · by_cases has : a = s
          · exact Or.inl has
          · exact Or.inr ⟨h1, fun hc => hc.elim has h2⟩

theorem nodup_dedupAux (l : List String) : ∀ seen, (dedupAux seen l).Nodup := by
  induction l with
  | nil =>
    intro seen
    simp [dedupAux]
  | cons s rest ih =>
    intro seen
    by_cases hs : s ∈ seen
    · rw [dedupAux, if_pos hs]
      exact ih seen
    · rw [dedupAux, if_neg hs]
      refine List.nodup_cons.mpr ⟨fun hmem => ?_, ih (s :: seen)⟩
      exact ((mem_dedupAux s rest (s :: seen)).mp hmem).2 (List.mem_cons_self s seen)

theorem mem_dedupFirst (a : String) (l : List String) : a ∈ dedupFirst l ↔ a ∈ l := by
  rw [dedupFirst, mem_dedupAux]
  simp

theorem nodup_dedupFirst (l : List String) : (dedupFirst l).Nodup :=
  nodup_dedupAux l []

theorem sortedNames_sorted (cells : List Cell) :
    List.Sorted (· ≤ ·) (sortedNames cells) :=
  List.sorted_insertionSort (· ≤ ·) _

theorem sortedNames_nodup (cells : List Cell) : (sortedNames cells).Nodup :=
  ((List.perm_insertionSort (· ≤ ·) _).nodup_iff).mpr (nodup_dedupFirst _)

theorem mem_sortedNames (s : String) (cells : List Cell) :
    s ∈ sortedNames cells ↔ Cell.str s ∈ cells := by
  rw [sortedNames, (List.perm_insertionSort (· ≤ ·) _).mem_iff, mem_dedupFirst,
    List.mem_filterMap]
  constructor
  · rintro ⟨c, hc, hcs⟩
    exact (strOf_eq_some.mp hcs) ▸ hc
  · intro hc
    exact ⟨Cell.str s, hc, rfl⟩

theorem aggFirst_cons (c : Cell) (l : List Cell) (h : c ≠ Cell.na) :
    aggFirst (c :: l) = c := by
  cases c with
  | na => exact absurd rfl h
  | num q => rfl
  | str s => rfl

theorem toNumeric_of_not_isStr (c : Cell) (h : c.isStr = false) : toNumeric c = c := by
  cases c with
  | na => rfl
  | num q => rfl
  | str s => exact absurd h (by simp [Cell.isStr])

theorem coerceRow_clean {r : PlanetRow} (h : coordCellsClean r = true) :
    coerceRow r = r := by
  have h' : (r.ra.isStr = false ∧ r.dec.isStr = false) ∧ r.sy_dist.isStr = false := by
    rw [coordCellsClean] at h
    simpa using h
  rw [coerceRow, toNumeric_of_not_isStr _ h'.1.1, toNumeric_of_not_isStr _ h'.1.2,
    toNumeric_of_not_isStr _ h'.2]

theorem map_coerce_of_clean (rows : List PlanetRow) :
    (∀ r ∈ rows, coordCellsClean r = true) → rows.map coerceRow = rows := by
  induction rows with
  | nil => intro _; rfl
  | cons r rs ih =>
    intro hall
    rw [List.map_cons, coerceRow_clean (hall r (List.mem_cons_self r rs)),
      ih (fun x hx => hall x (List.mem_cons_of_mem r hx))]

/-- C1: for every host, the Cartesian position computed by `create_starmap`
equals the spherical-to-Cartesian transform with RA and Dec converted to
radians — x = d·cos(Dec)·cos(RA), y = d·cos(Dec)·sin(RA), z = d·sin(Dec) —
and in particular RA=0, Dec=0, distance=10 pc maps to (10, 0, 0). -/
theorem c1_spherical_to_cartesian :
    (∀ ra dec dist : ℝ, skyToCartesian ra dec dist
      = (dist * Real.cos (deg2rad dec) * Real.cos (deg2rad ra),
         dist * Real.cos (deg2rad dec) * Real.sin (deg2rad ra),
         dist * Real.sin (deg2rad dec)))
    ∧ skyToCartesian 0 0 10 = (10, 0, 0) := by
  refine ⟨fun ra dec dist => rfl, ?_⟩
  simp [skyToCartesian, deg2rad]

/-- C9: for every (RA, Dec, distance) triple, the Cartesian coordinates
produced by the transform satisfy x² + y² + z² = distance², exactly, over
the reals. -/
theorem c9_norm_preserved (ra dec dist : ℝ) :
    (skyToCartesian ra dec dist).1 ^ 2 + (skyToCartesian ra dec dist).2.1 ^ 2
      + (skyToCartesian ra dec dist).2.2 ^ 2 = dist ^ 2 := by
  have h1 := Real.sin_sq_add_cos_sq (deg2rad ra)
  have h2 := Real.sin_sq_add_cos_sq (deg2rad dec)
  simp only [skyToCartesian]
  linear_combination (dist ^ 2 * Real.cos (deg2rad dec) ^ 2) * h1 + dist ^ 2 * h2

/-- C2 counterexample: the claim says every varying non-aggregated field is
taken from the first record of the group, but pandas `first` skips missing
values — for the host HostAB whose first record has a missing spectral type
and whose second record carries G2V, the aggregate holds G2V, not the NaN
of the first record. -/
theorem c2_first_record_counterexample :
    (aggregateHost "HostAB" [rowHostB1, rowHostA2]).st_spectype = Cell.str "G2V"
    ∧ rowHostB1.st_spectype = Cell.na := by
  exact ⟨rfl, rfl⟩

/-- C2 (amended): for every host group, the aggregate has planet count equal
to the exact group size, a discovery year that is a year of the group and a
lower bound of all its years, a planet-name list that joins the sorted,
deduplicated names occurring in the group, and every other varying field
equal to the first non-missing value of its column — in particular equal to
the value of the first record whenever that value is present. -/
theorem c2_aggregation_amended (h : String) (g : List PlanetRow) :
    (aggregateHost h g).sy_pnum = g.length
    ∧ (∀ q : ℚ, (aggregateHost h g).disc_year = Cell.num q →
        Cell.num q ∈ g.map (·.disc_year)
        ∧ ∀ r ∈ g, ∀ p : ℚ, r.disc_year = Cell.num p → q ≤ p)
    ∧ ((aggregateHost h g).pl_name
        = String.intercalate ", " (sortedNames (g.map (·.pl_name)))
      ∧ List.Sorted (· ≤ ·) (sortedNames (g.map (·.pl_name)))
      ∧ (sortedNames (g.map (·.pl_name))).Nodup
      ∧ ∀ s : String, s ∈ sortedNames (g.map (·.pl_name)) ↔ Cell.str s ∈ g.map (·.pl_name))
    ∧ ∀ r g', g = r :: g' →
        (r.ra ≠ Cell.na → (aggregateHost h g).ra = r.ra)
        ∧ (r.dec ≠ Cell.na → (aggregateHost h g).dec = r.dec)
        ∧ (r.sy_dist ≠ Cell.na → (aggregateHost h g).sy_dist = r.sy_dist)
        ∧ (r.st_spectype ≠ Cell.na → (aggregateHost h g).st_spectype = r.st_spectype)
        ∧ (r.st_teff ≠ Cell.na → (aggregateHost h g).st_teff = r.st_teff)
        ∧ (r.st_mass ≠ Cell.na → (aggregateHost h g).st_mass = r.st_mass)
        ∧ (r.st_rad ≠ Cell.na → (aggregateHost h g).st_rad = r.st_rad) := by
  refine ⟨rfl, ?_, ⟨rfl, sortedNames_sorted _, sortedNames_nodup _, fun s => mem_sortedNames s _⟩, ?_⟩
  · intro q hq
    have hq' : aggMin (g.map (·.disc_year)) = Cell.num q := hq
    obtain ⟨hmem, hle⟩ := aggMin_num hq' 
    refine ⟨hmem, fun r hr p hp => ?_⟩
    exact hle r.disc_year (List.mem_map_of_mem (·.disc_year) hr) p hp
  · rintro r g' rfl
    exact ⟨fun hne => aggFirst_cons _ _ hne, fun hne => aggFirst_cons _ _ hne,
      fun hne => aggFirst_cons _ _ hne, fun hne => aggFirst_cons _ _ hne,
      fun hne => aggFirst_cons _ _ hne, fun hne => aggFirst_cons _ _ hne,
      fun hne => aggFirst_cons _ _ hne⟩

/-- C2 witness: the amended first-value rule evaluated on a concrete
one-record group whose spectral type is present. -/
theorem c2_aggregation_amended_witness :
    (aggregateHost "HostAB" [rowHostA2]).st_spectype = rowHostA2.st_spectype :=
  ((c2_aggregation_amended "HostAB" [rowHostA2]).2.2.2 rowHostA2 [] rfl).2.2.2.1
    (by decide)

theorem fmt1_ten_pc : fmt1 ((10 : ℚ) / 3.08568) = "3.2" := by
  have hf : Rat.floor ((10 : ℚ) / 3.08568 * 10 + 1 / 2) = 32 := by
    show Int.floor ((10 : ℚ) / 3.08568 * 10 + 1 / 2) = 32
    rw [Int.floor_eq_iff]
    norm_num
  show toString (Int.toNat (Rat.floor ((10 : ℚ) / 3.08568 * 10 + 1 / 2)) / 10) ++ "."
    ++ toString (Int.toNat (Rat.floor ((10 : ℚ) / 3.08568 * 10 + 1 / 2)) % 10) = "3.2"
  rw [hf]
  rfl

theorem travel_ten_pc :
    Int.toNat (Rat.floor ((10 : ℚ) / 3.08568 * LIGHT_YEAR_KM
      / (FASTEST_SPEED_KMH * HOURS_PER_YEAR))) = 5057 := by
  have hf : Rat.floor ((10 : ℚ) / 3.08568 * LIGHT_YEAR_KM
      / (FASTEST_SPEED_KMH * HOURS_PER_YEAR)) = 5057 := by
    show Int.floor ((10 : ℚ) / 3.08568 * LIGHT_YEAR_KM
      / (FASTEST_SPEED_KMH * HOURS_PER_YEAR)) = 5057
    simp only [LIGHT_YEAR_KM, FASTEST_SPEED_KMH, HOURS_PER_YEAR]
    rw [Int.floor_eq_iff]
    norm_num
  rw [hf]
  rfl

set_option maxRecDepth 40000 in
theorem hG2V_blurb : generate_blurbs hostG2V = Except.ok blurbG2V := by
  show Except.ok ("\n            **" ++ "X-star" ++ "**  \n\n            This "
      ++ star_desc (upperStr "G2V") ++ " is approximately "
      ++ fmt1 ((10 : ℚ) / 3.08568)
      ++ " light-years from us.  \n\n            It has **" ++ toString (1 : ℕ)
      ++ " planet" ++ (if (1 : ℕ) ≠ 1 then "s" else "") ++ "** (" ++ "X"
      ++ ").  \n\n            Habitable zone? " ++ hz_status
      ++ "  \n\n            Getting there with today\x27s fastest spacecraft tech (Parker Solar Probe speeds ~692,000 km/h)?  \n            Roughly **"
      ++ commaFmt (Int.toNat (Rat.floor ((10 : ℚ) / 3.08568 * LIGHT_YEAR_KM
          / (FASTEST_SPEED_KMH * HOURS_PER_YEAR))))
      ++ " years** one-way. Better bring a really good book... or wait for that warp drive breakthrough. 🚀😅\n            ")
    = Except.ok blurbG2V
  rw [fmt1_ten_pc, travel_ten_pc]
  rfl

set_option maxRecDepth 40000 in
/-- C3: the claim (and the spec worked example) say the blurb of a star at
10 pc shows 32.5 light-years; the code divides parsecs by 3.08568 — in
conflict with its own inline comment stating 1 pc = 3.08568 ly — so the
generated blurb at 10 pc contains 3.2 light-years and not 32.5. -/
theorem c3_distance_conversion_bug :
    generate_blurbs hostG2V = Except.ok blurbG2V
    ∧ hasSub blurbG2V "3.2 light-years" = true
    ∧ hasSub blurbG2V "32.5 light-years" = false :=
  ⟨hG2V_blurb, by decide, by decide⟩

/-- C4: the claim says a missing spectral type lands in the other bucket
with the fallback text mysterious; in the code the fallback is uppercased
to MYSTERIOUS before the prefix tests, so it matches the M branch and the
blurb describes a red dwarf instead of interpolating the fallback. -/
theorem c4_missing_spectype_bug :
    sptUpper none = Except.ok "MYSTERIOUS"
    ∧ star_desc "MYSTERIOUS"
      = "a chill red dwarf that\x27s basically immortal (trillions of years potential lifespan)"
    ∧ star_desc "MYSTERIOUS" ≠ "an intriguing star of type MYSTERIOUS" := by
  refine ⟨rfl, by decide, by decide⟩

/-- C5: the claim says a clicked host name matching a record retrieves that
blurb; the selection handler queries the planet-level filtered frame, which
has no blurb column (`create_starmap` writes blurbs only to its internal
aggregate), so a matching click raises KeyError while a non-matching click
correctly retrieves nothing. -/
theorem c5_blurb_lookup_bug :
    viewer_lookup_blurb [rowKepler] "Kepler-22" = Except.error ()
    ∧ viewer_lookup_blurb [rowKepler] "Vega" = Except.ok none := by
  exact ⟨rfl, rfl⟩

/-- C6 counterexample: the claim says `create_starmap` leaves its input
collection unchanged, but the in-place numeric coercion rewrites a
string-valued right ascension (here the non-numeric string abc becomes
NaN inside the frame of the caller). -/
theorem c6_purity_counterexample :
    create_starmap_input_after [rowStrRa] ≠ [rowStrRa] := by
  decide

/-- C6 (amended): `create_starmap` mutates only the `ra`, `dec`, `sy_dist`
fields of its input records (numeric coercion in place); every other field
of every record, and the number and order of records, are unchanged, and a
record whose three coordinate cells are already numeric or missing is left
fully unchanged. -/
theorem c6_purity_amended (rows : List PlanetRow) :
    (create_starmap_input_after rows).map nonCoordFields = rows.map nonCoordFields
    ∧ (create_starmap_input_after rows).length = rows.length
    ∧ ((∀ r ∈ rows, coordCellsClean r = true) → create_starmap_input_after rows = rows) := by
  refine ⟨?_, ?_, map_coerce_of_clean rows⟩
  · rw [create_starmap_input_after, List.map_map]
    exact List.map_congr_left (fun r _ => rfl)
  · rw [create_starmap_input_after, List.length_map]

/-- C6 witness: a frame whose coordinate cells are all numeric is returned
unchanged, via the amended theorem at a concrete input. -/
theorem c6_purity_amended_witness :
    create_starmap_input_after [rowKepler] = [rowKepler] :=
  (c6_purity_amended [rowKepler]).2.2 (by decide)

/-- C7: the claim says no exception propagates out of the core and missing
optional fields get fallback text; for a host whose aggregated spectral
type is missing (NaN), `generate_blurbs` calls the string upper method on a
float and an AttributeError escapes `create_starmap`, while the empty input
collection does return an empty result. -/
theorem c7_exception_bug :
    create_starmap_core [rowNaSpt] = Except.error ()
    ∧ create_starmap_core [] = Except.ok [] := by
  exact ⟨rfl, rfl⟩

/-- C8: a record is retained in the spatial frame exactly when all three of
RA, Dec and distance are present and numerically coercible: the coerce-
then-drop pipeline equals keeping precisely the coercible records (in their
coerced form), so failing records are silently excluded, never defaulted. -/
theorem c8_coordinate_filter (rows : List PlanetRow) :
    df_plot rows = (rows.filter (fun r => validCoords (coerceRow r))).map coerceRow := by
  rw [df_plot]
  induction rows with
  | nil => rfl
  | cons r rs ih =>
    simp only [List.map_cons, List.filter_cons]
    by_cases h : validCoords (coerceRow r) = true
    · simp [h, ih]
    · simp [h, ih]

/-- C10: spectral classification is case-insensitive — the description
depends only on the uppercased type string, a lowercase g2v lands in the G
bucket, and an unrecognized type is interpolated in uppercased form. -/
theorem c10_case_insensitive_classification :
    (∀ s t : String, upperStr s = upperStr t → blurb_star_desc s = blurb_star_desc t)
    ∧ blurb_star_desc "g2v"
      = "a proper Sun-like yellow star (the classic \x27Goldilocks\x27 host)"
    ∧ blurb_star_desc "sdB" = "an intriguing star of type SDB" := by
  refine ⟨fun s t h => ?_, by decide, by decide⟩
  rw [blurb_star_desc, blurb_star_desc, h]

/-- C10 witness: the case-insensitivity instance at concrete inputs. -/
theorem c10_case_insensitive_witness :
    blurb_star_desc "G2V" = blurb_star_desc "g2v" :=
  c10_case_insensitive_classification.1 "G2V" "g2v" (by decide)
